import Mathlib

/-!
Verification of the oxhook event dispatch and delivery core.

This file shallowly embeds the Python source of the `oxhook` package in
Lean 4 and settles the specification claims against it.  Pure functions
of the source become Lean functions; the Django store, the settings
dictionary, the job queue and the wall clock become explicit parameters
or fields of an environment record; raised exceptions become explicit
error values.  JSON serialization (`json.dumps`) is modelled
structurally: a scheduled job carries the value handed to the encoder,
so field-level properties of the serialized payload are stated on that
value.
-/

namespace Oxhook

/-- A Python value, as these circulate through the dispatch path:
`None`, booleans, ints, floats (modelled as rationals), strings, lists
and dicts (association lists of string keys). -/
inductive PyValue where
  | none
  | bool (b : Bool)
  | int (n : Int)
  | float (q : ℚ)
  | str (s : String)
  | list (xs : List PyValue)
  | dict (fields : List (String × PyValue))
deriving Repr

/-- `isinstance(v, str)`. -/
def PyValue.isStr : PyValue → Bool
  | .str _ => true
  | _ => false

/-- `isinstance(v, dict)`. -/
def PyValue.isDict : PyValue → Bool
  | .dict _ => true
  | _ => false

/-- `v is None`. -/
def PyValue.isNone : PyValue → Bool
  | .none => true
  | _ => false

/-- Key lookup in a dict value (`v[k]` / `v.get(k)`); `Option.none` when
the value is not a dict or the key is absent. -/
def PyValue.getKey : PyValue → String → Option PyValue
  | .dict fields, k => fields.lookup k
  | _, _ => Option.none

/-- The exceptions raised on the dispatch path
(`oxhook/exceptions.py` declares `TopicNotFound` and
`InvalidPayloadType`; `ValidationError` is Django's;
`TypeError` is Python's built-in). -/
inductive PyError where
  | topicNotFound (msg : String)
  | invalidPayloadType (msg : String)
  | validationError (msg : String)
  | typeError (msg : String)
deriving Repr, DecidableEq

/-- `registry.get_handler`: look the topic up in `TOPIC_REGISTRY`
(an association list of topic name to handler function) and raise
`TopicNotFound` when absent (`oxhook/registry.py`). -/
def get_handler (registry : List (String × (PyValue → PyValue))) (topic : String) :
    Except PyError (PyValue → PyValue) :=
  match registry.lookup topic with
  | Option.none => .error (.topicNotFound ("Topic '" ++ topic ++ "' doesn't exist."))
  | Option.some f => .ok f

/-- The process environment seen by `signals.handle_fire_webhook`:
the topic registry, the `MODE` and `USE_CACHE` settings, the store's
active-webhook query, the subscriber cache and the current time. -/
structure Env where
  /-- `TOPIC_REGISTRY` : topic name → handler. -/
  registry : List (String × (PyValue → PyValue))
  /-- `get_settings()['MODE']` (`"LIVE"` for live delivery, anything
  else echoes to the console). -/
  mode : String
  /-- `get_settings()["USE_CACHE"]`. -/
  useCache : Bool
  /-- `_query_webhooks topic` — the store query
  `Webhook.objects.filter(active=True, topics__name=topic)
  .values_list("id", "uuid")`: the `(id, uuid)` rows of active
  webhooks subscribed to the topic. -/
  store : String → List (Nat × String)
  /-- Modelled from the spec: the TTL cache decorator (`oxhook/util.py`
  is not under `src/`).  §4.2: an unexpired cache entry for a topic is
  `some rows` and is returned without touching the store; `none` is a
  miss, which delegates to the store query. -/
  cache : String → Option (List (Nat × String))
  /-- `timezone.now().timestamp()` — epoch seconds. -/
  now : ℚ

/-- One scheduled delivery job: the arguments of
`task_fire_webhook.delay(id, payload, topic=topic)`.  `payload` is the
value handed to `json.dumps` (serialization modelled structurally). -/
structure Job where
  webhookId : Nat
  payload : PyValue
  topic : String
deriving Repr

/-- The observable outcome of one `handle_fire_webhook` invocation:
the delivery jobs scheduled (live mode), the payload dicts echoed to
the console (diagnostic mode), how many times the store was queried
for subscribers, and the exception the receiver raised, if any
(jobs scheduled before the exception are kept: scheduling is
fire-and-forget, never rolled back). -/
structure FireResult where
  jobs : List Job
  console : List PyValue
  storeQueries : Nat
  error : Option PyError
deriving Repr

/-- One element of the `webhook_ids` list the dispatch loop iterates
over: either an `(id, uuid)` row from the store query, or the bare
`webhook_id` argument wrapped in a singleton list on the direct-target
path.  A bare `uuid.UUID` is not a 2-element sequence, so Python's
tuple unpacking `for id, uuid in webhook_ids` raises `TypeError` on
it. -/
inductive TargetRef where
  | row (id : Nat) (uuid : String)
  | raw (webhookId : String)
deriving Repr, DecidableEq

/-- `signals._find_webhooks`: when `USE_CACHE` is set, go through the
cached query (`_query_webhooks_cached`); otherwise query the store
directly.  Returns the subscriber rows together with the number of
store queries issued (0 on a cache hit, 1 otherwise). -/
def find_webhooks (env : Env) (topic : String) : List (Nat × String) × Nat :=
  if env.useCache then
    match env.cache topic with
    | Option.some rows => (rows, 0)
    | Option.none => (env.store topic, 1)
  else (env.store topic, 1)

/-- The `for id, uuid in webhook_ids:` loop body of
`handle_fire_webhook`, iterated over the target list.  For each row it
builds `payload_dict` with fields `object`, `topic`, `timestamp`,
`webhook_uuid`, serializes `payload_body` (the source passes
`payload_body`, not `payload_dict`, to `json.dumps` on line 52), then
either schedules `task_fire_webhook.delay(id, payload, topic)` in
`LIVE` mode or prints `payload_dict` in console mode.  Unpacking a
bare `webhook_id` raises `TypeError`, which ends the loop; jobs
already scheduled stay scheduled. -/
def processTargets (env : Env) (topic : String) (payload_body : PyValue) :
    List TargetRef → List Job × List PyValue × Option PyError
  | [] => ([], [], Option.none)
  | TargetRef.raw _ :: _ =>
      ([], [], Option.some (.typeError "cannot unpack non-iterable UUID object"))
  | TargetRef.row id uuid :: rest =>
      let payload_dict := PyValue.dict
        [("object", payload_body),
         ("topic", .str topic),
         ("timestamp", .float env.now),
         ("webhook_uuid", .str uuid)]
      let (jobs, console, err) := processTargets env topic payload_body rest
      if env.mode = "LIVE" then
        ({ webhookId := id, payload := payload_body, topic := topic } :: jobs, console, err)
      else
        (jobs, payload_dict :: console, err)

/-- `signals.handle_fire_webhook`: resolve the handler (raising
`TopicNotFound` when unregistered), apply it to `data`, type-check the
payload body (`InvalidPayloadType` unless it is a string, a dict or
`None`), build the target list (the bare `webhook_id` wrapped in a
singleton when given, otherwise the resolved subscriber rows), and run
the delivery loop. -/
def handle_fire_webhook (env : Env) (topic : String) (data : PyValue)
    (webhook_id : Option String) : FireResult :=
  match get_handler env.registry topic with
  | .error e => { jobs := [], console := [], storeQueries := 0, error := Option.some e }
  | .ok handler =>
    let payload_body := handler data
    if ¬ (payload_body.isStr ∨ payload_body.isDict ∨ payload_body.isNone) then
      { jobs := [], console := [], storeQueries := 0,
        error := Option.some (.invalidPayloadType "Payload must be a string/dict/None.") }
    else
      let (targets, queries) : List TargetRef × Nat :=
        match webhook_id with
        | Option.some wid => ([TargetRef.raw wid], 0)
        | Option.none =>
          let (rows, q) := find_webhooks env topic
          (rows.map (fun r => TargetRef.row r.1 r.2), q)
      let (jobs, console, err) := processTargets env topic payload_body targets
      { jobs := jobs, console := console, storeQueries := queries, error := err }

/-- `WebhookEventService.fire_webhook_event`
(`oxhook/api/services.py`): validate the topic with `get_handler`,
turning `TopicNotFound` into a Django `ValidationError` surfaced to
the caller; then `fire_webhook.send_robust(...)`, which invokes
`handle_fire_webhook` and **catches** any exception the receiver
raises (Django's `send_robust` returns receiver exceptions in its
result list instead of propagating them), so the call returns
normally with the receiver's effects. -/
def fire_webhook_event (env : Env) (topic : String) (data : PyValue)
    (webhook_id : Option String) : Except PyError FireResult :=
  match get_handler env.registry topic with
  | .error _ => .error (.validationError ("Invalid topic: " ++ topic))
  | .ok _ => .ok (handle_fire_webhook env topic data webhook_id)

/-! Section: Secret service (`WebhookSecretService`, `oxhook/api/services.py`) -/

/-- The return value of one `secrets.token_urlsafe(length)` call,
modelled as an opaque fresh draw from the process entropy source:
`seed` numbers the draw (each call consumes one), `nbytes` is the
`length` argument passed — the number of random bytes the URL-safe
token encodes. -/
structure UrlsafeToken where
  seed : Nat
  nbytes : Nat
deriving Repr, DecidableEq

/-- The secret rows of the store, each `(webhook id, token)`; the
store's query order is kept as list order. -/
abbrev SecretStore := List (Nat × UrlsafeToken)

/-- `WebhookSecretService.generate_secret(webhook, length=32)`:
draw `token = secrets.token_urlsafe(length)`, delete every existing
secret of the webhook (`webhook.secrets.all().delete()`), then create
the one new row — all inside one operation.  Returns the new store
state, the advanced entropy seed, and the created token. -/
def generate_secret (st : SecretStore) (seed : Nat) (webhook : Nat)
    (length : Nat := 32) : SecretStore × Nat × UrlsafeToken :=
  let token : UrlsafeToken := { seed := seed, nbytes := length }
  let cleared := st.filter (fun r => r.1 ≠ webhook)
  (cleared ++ [(webhook, token)], seed + 1, token)

/-- `WebhookSecretService.get_active_secret(webhook)`:
`webhook.secrets.first()` — the first secret row of the webhook, or
`none`. -/
def get_active_secret (st : SecretStore) (webhook : Nat) : Option UrlsafeToken :=
  ((st.filter (fun r => r.1 = webhook)).head?).map Prod.snd

/-- `WebhookSecretService.rotate_secret(webhook)`: exactly
`generate_secret(webhook)` with the default length. -/
def rotate_secret (st : SecretStore) (seed : Nat) (webhook : Nat) :
    SecretStore × Nat × UrlsafeToken :=
  generate_secret st seed webhook

/-- One call in a generate/rotate sequence for a fixed webhook. -/
inductive SecretOp where
  | generate (length : Nat)
  | rotate
deriving Repr, DecidableEq

/-- Apply one generate/rotate call. -/
def applySecretOp (webhook : Nat) (st : SecretStore) (seed : Nat) :
    SecretOp → SecretStore × Nat × UrlsafeToken
  | .generate length => generate_secret st seed webhook length
  | .rotate => rotate_secret st seed webhook

/-- Run a sequence of generate/rotate calls for one webhook, returning
the final store and entropy seed and the list of tokens the calls
created, in call order. -/
def runSecretOps (webhook : Nat) (st : SecretStore) (seed : Nat) :
    List SecretOp → SecretStore × Nat × List UrlsafeToken
  | [] => (st, seed, [])
  | op :: rest =>
    let (st', seed', tok) := applySecretOp webhook st seed op
    let (stN, seedN, toks) := runSecretOps webhook st' seed' rest
    (stN, seedN, tok :: toks)

/-! Section: Topic reconciliation
(`management/commands/populate_webhook_topics.py`) -/

/-- `Command.handle` of `populate_webhook_topics` (after the database
connectivity guard): with `allowed_topics = set(TOPIC_REGISTRY.keys())`,
return early leaving the store untouched when the registry is empty
("No topics found in registry."); otherwise delete every stored topic
name not in `allowed_topics`, then create every allowed topic missing
from the store.  States are sets of topic names. -/
def populate_webhook_topics (registry store : Finset String) : Finset String :=
  if registry = ∅ then store
  else store.filter (fun t => t ∈ registry) ∪ registry

/-! Section: Bulk controllers (`WebhookBulkController`,
`oxhook/api/controllers.py`).  Whether each item's service call
succeeds depends on the store; the embedding abstracts item `i`'s
outcome as a boolean (for create, as `Option` of the created record):
the controller's own logic — `try`/`except`/`continue`, the counters,
and the response's `success` flag — is what is embedded. -/

/-- The `WebhookOperationResponseSchema` fields the bulk endpoints
fill in: the overall `success` flag and the two counters interpolated
into `message`. -/
structure BulkResponse where
  success : Bool
  okCount : Nat
  failedCount : Nat
deriving Repr, DecidableEq

/-- `bulk_update_webhooks`: iterate over the ids, `try` the update —
on exception log, bump `failed_count` and `continue` — and reply with
`success = (failed_count == 0)` and both counters. -/
def bulk_update_webhooks (outcomes : List Bool) : BulkResponse :=
  let updated := (outcomes.filter (fun b => b)).length
  let failed := (outcomes.filter (fun b => !b)).length
  { success := failed = 0, okCount := updated, failedCount := failed }

/-- `bulk_delete_webhooks`: same loop shape as the bulk update, with
`deleted_count` in place of `updated_count`. -/
def bulk_delete_webhooks (outcomes : List Bool) : BulkResponse :=
  let deleted := (outcomes.filter (fun b => b)).length
  let failed := (outcomes.filter (fun b => !b)).length
  { success := failed = 0, okCount := deleted, failedCount := failed }

/-- `bulk_create_webhooks`: iterate over the payload items, `try` the
create — on exception log and `continue` — and return the list of
webhooks actually created (`α` stands for the created record; `none`
is an item whose create raised). -/
def bulk_create_webhooks {α : Type} (outcomes : List (Option α)) : List α :=
  outcomes.filterMap id

/-! Section: Events, stats, health and retry
(`WebhookEventService` / `WebhookValidationService`,
`oxhook/api/services.py`) -/

/-- A webhook row as the retry/health paths read it. -/
structure WebhookRec where
  id : Nat
  uuid : String
  url : String
  active : Bool
deriving Repr, DecidableEq

/-- A `WebhookEvent` row: the audit record of one delivery attempt.
`webhook` is the foreign key (`none` when the referenced webhook is
gone), `object` the original payload data, `created` epoch seconds. -/
structure WebhookEventRec where
  id : Nat
  webhook : Option WebhookRec
  topic : String
  object : PyValue
  status : String
  created : ℚ
deriving Repr

/-- The dict `get_event_stats` returns. -/
structure EventStats where
  total : Nat
  success : Nat
  failed : Nat
  pending : Nat
deriving Repr, DecidableEq

/-- `WebhookEventService.get_event_stats(webhook, days=30)`:
`cutoff_date = now - timedelta(days=days)`; count the webhook's events
with `created >= cutoff_date`, total and per status. -/
def get_event_stats (events : List WebhookEventRec) (now : ℚ)
    (days : ℚ := 30) : EventStats :=
  let cutoff := now - days * 86400
  let window := events.filter (fun e => cutoff ≤ e.created)
  { total := window.length,
    success := (window.filter (fun e => e.status = "SUCCESS")).length,
    failed := (window.filter (fun e => e.status = "FAILURE")).length,
    pending := (window.filter (fun e => e.status = "PENDING")).length }

/-- Python's `round(x, 2)`.  (Python rounds half to even; this differs
from `round` only at exact half-way values, which no claim touches.) -/
def round2 (q : ℚ) : ℚ := ((round (q * 100) : ℤ) : ℚ) / 100

/-- The dict `get_webhook_health` returns. -/
structure WebhookHealth where
  webhook_id : String
  url : String
  active : Bool
  health_status : String
  success_rate : ℚ
  events_last_7_days : EventStats
  last_event : Option ℚ
deriving Repr, DecidableEq

/-- `WebhookValidationService.get_webhook_health(webhook)`:
take stats over `days=7` (the window is fixed in the call — the
function has no window parameter), compute
`success_rate = success / total * 100` guarded to `0` when
`total == 0`, classify `healthy` at rate ≥ 95, `warning` at ≥ 80,
`unhealthy` otherwise, and report the rounded rate.  `events` is the
webhook's event list in the store's row order (newest first, as the
event queries order by `-created`). -/
def get_webhook_health (webhook : WebhookRec) (events : List WebhookEventRec)
    (now : ℚ) : WebhookHealth :=
  let stats := get_event_stats events now 7
  let total_events := stats.total
  let success_rate : ℚ :=
    if 0 < total_events then ((stats.success : ℚ) / (total_events : ℚ)) * 100 else 0
  let health_status :=
    if 95 ≤ success_rate then "healthy"
    else if 80 ≤ success_rate then "warning"
    else "unhealthy"
  { webhook_id := webhook.uuid,
    url := webhook.url,
    active := webhook.active,
    health_status := health_status,
    success_rate := round2 success_rate,
    events_last_7_days := stats,
    last_event := (events.head?).map (fun e => e.created) }

/-- `WebhookEventService.retry_failed_event(event_id)`: look the event
up (`ValidationError "Event not found"` when absent); refuse with a
`ValidationError` unless its status is `FAILURE`; refuse with a
`ValidationError` when its webhook is missing or inactive; otherwise
fire `fire_webhook_event` again with the event's original topic,
payload and webhook uuid. -/
def retry_failed_event (env : Env) (events : List WebhookEventRec)
    (event_id : Nat) : Except PyError FireResult :=
  match events.find? (fun e => e.id = event_id) with
  | Option.none => .error (.validationError "Event not found")
  | Option.some event =>
    if event.status ≠ "FAILURE" then
      .error (.validationError "Only failed events can be retried")
    else
      match event.webhook with
      | Option.none => .error (.validationError "Webhook is not active")
      | Option.some wh =>
        if ¬ wh.active then .error (.validationError "Webhook is not active")
        else fire_webhook_event env event.topic event.object (Option.some wh.uuid)

/-! Section: Concrete environments used by the claim instances -/

/-- The handler of the end-to-end scenario:
`data → {"id": data["id"]}`. -/
def orderCreatedHandler (data : PyValue) : PyValue :=
  .dict [("id", (data.getKey "id").getD PyValue.none)]

/-- A handler violating the payload contract (returns an int). -/
def badHandler (_ : PyValue) : PyValue := .int 5

/-- A live-mode environment: topic `order.created` registered with
`orderCreatedHandler`, topic `topic.bad` with `badHandler`, one active
subscriber `(1, "wh-uuid-1")` on each topic, cache disabled. -/
def demoEnv : Env :=
  { registry := [("order.created", orderCreatedHandler), ("topic.bad", badHandler)],
    mode := "LIVE",
    useCache := false,
    store := fun _ => [(1, "wh-uuid-1")],
    cache := fun _ => Option.none,
    now := 1700000000 }

/-- A live-mode environment with an empty registry but a warm cache
and a populated store, to exercise dispatch on unregistered topics
under every caching state. -/
def emptyRegistryEnv : Env :=
  { registry := [],
    mode := "LIVE",
    useCache := true,
    store := fun _ => [(1, "wh-uuid-1")],
    cache := fun _ => Option.some [(1, "wh-uuid-1")],
    now := 1700000000 }

/-- The success rate exactly as the specification words it:
`success / total * 100`, defined as `0` when `total == 0`. -/
def specSuccessRate (stats : EventStats) : ℚ :=
  if stats.total = 0 then 0 else ((stats.success : ℚ) / (stats.total : ℚ)) * 100

/-- The health classification exactly as the specification words it:
`healthy` when the rate is ≥ 95, `warning` when ≥ 80, else
`unhealthy`. -/
def specHealthStatus (rate : ℚ) : String :=
  if 95 ≤ rate then "healthy" else if 80 ≤ rate then "warning" else "unhealthy"

/-- An event row with the given status and creation time. -/
def mkEvent (status : String) (created : ℚ) : WebhookEventRec :=
  { id := 0, webhook := Option.none, topic := "order.created",
    object := PyValue.none, status := status, created := created }

/-- `succ` freshly created `SUCCESS` events followed by `fail`
`FAILURE` events, all inside the 7-day window around
`now = 1700000000`. -/
def tableEvents (succ fail : Nat) : List WebhookEventRec :=
  List.replicate succ (mkEvent "SUCCESS" 1700000000)
    ++ List.replicate fail (mkEvent "FAILURE" 1700000000)

/-- An active webhook row. -/
def demoWebhook : WebhookRec :=
  { id := 1, uuid := "wh-uuid-1", url := "https://example.test/hook", active := true }

/-- One stored event in status `SUCCESS`, attached to the active
`demoWebhook`, for exercising the retry preconditions. -/
def retryDemoEvents : List WebhookEventRec :=
  [{ id := 1, webhook := Option.some demoWebhook, topic := "order.created",
     object := .dict [("id", .int 7)], status := "SUCCESS", created := 0 }]

/-! Section: C1 -/

/-- Claim C1 (code bug): dispatching `{"id": 7}` on `order.created` in
live mode with one active subscriber schedules exactly one job — but
the value handed to `json.dumps` for that job is the bare handler body
`{"id": 7}` (`signals.py` line 52 serializes `payload_body`, not the
`payload_dict` built two lines above with the `object`/`topic`/
`timestamp`/`webhook_uuid` wire shape), so the job payload has no
`object` field at all, against the specified wire shape and the
specified `object.id == 7`. -/
theorem live_job_payload_is_bare_body :
    fire_webhook_event demoEnv "order.created" (.dict [("id", .int 7)]) Option.none
      = .ok { jobs := [{ webhookId := 1,
                         payload := .dict [("id", .int 7)],
                         topic := "order.created" }],
              console := [], storeQueries := 1, error := Option.none }
    ∧ (PyValue.dict [("id", PyValue.int 7)]).getKey "object" = Option.none
    ∧ (PyValue.dict [("id", PyValue.int 7)]).getKey "webhook_uuid" = Option.none := by
  refine ⟨rfl, rfl, rfl⟩

/-! Section: C2 -/

/-- Claim C2 (code bug): dispatching with a direct `target_webhook_id`
does bypass subscriber resolution (zero store queries), but the
singleton list `[webhook_id]` holds the bare UUID, and the loop
`for id, uuid in webhook_ids` immediately raises `TypeError` trying to
unpack it — so no envelope is ever constructed or scheduled for the
targeted webhook. -/
theorem direct_target_dispatch_raises_type_error :
    fire_webhook_event demoEnv "order.created" (.dict [("id", .int 7)])
        (Option.some "wh-uuid-1")
      = .ok { jobs := [], console := [], storeQueries := 0,
              error := Option.some (.typeError "cannot unpack non-iterable UUID object") } := by
  rfl

/-! Section: C3 -/

/-- Claim C3 counterexample: with the registered handler returning the
int `5`, the dispatch call `fire_webhook_event` returns normally
(`.ok`) — the `InvalidPayloadType` the receiver raised was captured by
`send_robust` and is *not* surfaced to the caller, refuting the claim
as stated.  (No job was scheduled, as the result shows.) -/
theorem invalid_payload_not_surfaced :
    fire_webhook_event demoEnv "topic.bad" PyValue.none Option.none
      = .ok { jobs := [], console := [], storeQueries := 0,
              error := Option.some
                (.invalidPayloadType "Payload must be a string/dict/None.") } := by
  rfl

/-- Claim C3 as amended: whenever the registered handler's result is
neither `None` nor a string nor a dict, the receiver aborts with
`InvalidPayloadType` before resolving subscribers — no delivery job is
scheduled, nothing is emitted, the store is never queried — but the
exception is swallowed by the robust signal send, so
`fire_webhook_event` itself returns normally instead of surfacing it. -/
theorem invalid_payload_aborts_dispatch (env : Env) (topic : String)
    (data : PyValue) (webhook_id : Option String) (handler : PyValue → PyValue)
    (hreg : env.registry.lookup topic = Option.some handler)
    (hstr : (handler data).isStr = false)
    (hdict : (handler data).isDict = false)
    (hnone : (handler data).isNone = false) :
    fire_webhook_event env topic data webhook_id
      = .ok { jobs := [], console := [], storeQueries := 0,
              error := Option.some
                (.invalidPayloadType "Payload must be a string/dict/None.") } := by
  unfold fire_webhook_event handle_fire_webhook get_handler
  rw [hreg]
  simp [hstr, hdict, hnone]

/-- Witness for `invalid_payload_aborts_dispatch` at a concrete
input. -/
theorem invalid_payload_aborts_dispatch_witness :
    fire_webhook_event demoEnv "topic.bad" (PyValue.str "x") Option.none
      = .ok { jobs := [], console := [], storeQueries := 0,
              error := Option.some
                (.invalidPayloadType "Payload must be a string/dict/None.") } :=
  invalid_payload_aborts_dispatch demoEnv "topic.bad" (PyValue.str "x")
    Option.none badHandler rfl rfl rfl rfl

/-! Section: C4 -/

/-- Claim C4: dispatching any topic absent from the registry fails with
a `ValidationError` naming the topic (`get_handler` raises
`TopicNotFound`, which `fire_webhook_event` converts and surfaces to
the caller), for every input data and target and for *every*
environment — in particular for every `USE_CACHE` setting and every
cache and store content, since the failure happens before subscriber
resolution; the `.error` return carries no effects: no delivery job is
scheduled. -/
theorem unregistered_topic_fails_validation (env : Env) (topic : String)
    (data : PyValue) (webhook_id : Option String)
    (habs : env.registry.lookup topic = Option.none) :
    fire_webhook_event env topic data webhook_id
      = .error (.validationError ("Invalid topic: " ++ topic)) := by
  unfold fire_webhook_event get_handler
  rw [habs]

/-- Witness for `unregistered_topic_fails_validation`: an unregistered
topic against an environment whose cache and store both hold
subscribers (caching enabled). -/
theorem unregistered_topic_fails_validation_witness :
    fire_webhook_event emptyRegistryEnv "order.created"
        (.dict [("id", .int 7)]) Option.none
      = .error (.validationError "Invalid topic: order.created") :=
  unregistered_topic_fails_validation emptyRegistryEnv "order.created"
    (.dict [("id", .int 7)]) Option.none rfl

/-! Section: C5 -/

/-- Rows kept by the delete (`r.1 ≠ webhook`) never match the
webhook again. -/
theorem filter_ne_then_eq (webhook : Nat) (st : SecretStore) :
    (st.filter (fun r => r.1 ≠ webhook)).filter (fun r => r.1 = webhook) = [] := by
  induction st with
  | nil => rfl
  | cons a t ih =>
    by_cases h : a.1 = webhook
    · simp [h, ih]
    · simp [h, ih]

/-- One generate/rotate leaves the webhook with exactly the one token
it created. -/
theorem applySecretOp_filter (webhook : Nat) (st : SecretStore) (seed : Nat)
    (op : SecretOp) :
    (applySecretOp webhook st seed op).1.filter (fun r => r.1 = webhook)
      = [(webhook, (applySecretOp webhook st seed op).2.2)] := by
  cases op <;>
    simp [applySecretOp, generate_secret, rotate_secret, List.filter_append,
      filter_ne_then_eq]

/-- After any nonempty generate/rotate sequence the webhook's stored
secrets are exactly the singleton holding the last created token, and
one token was created per call. -/
theorem runSecretOps_last (webhook : Nat) :
    ∀ (ops : List SecretOp) (st : SecretStore) (seed : Nat), ops ≠ [] →
    ∃ tok : UrlsafeToken,
      (runSecretOps webhook st seed ops).2.2.getLast? = Option.some tok ∧
      (runSecretOps webhook st seed ops).1.filter (fun r => r.1 = webhook)
        = [(webhook, tok)] ∧
      (runSecretOps webhook st seed ops).2.2.length = ops.length := by
  intro ops
  induction ops with
  | nil => intro st seed h; exact absurd rfl h
  | cons op rest ih =>
    intro st seed _
    cases rest with
    | nil =>
      refine ⟨(applySecretOp webhook st seed op).2.2, ?_, ?_, ?_⟩
      · simp [runSecretOps]
      · simpa [runSecretOps] using applySecretOp_filter webhook st seed op
      · simp [runSecretOps]
    | cons op2 rest2 =>
      obtain ⟨tok, hlast, hfilter, hlen⟩ :=
        ih (applySecretOp webhook st seed op).1
          (applySecretOp webhook st seed op).2.1 (by simp)
      refine ⟨tok, ?_, ?_, ?_⟩
      · have hexp : (runSecretOps webhook st seed (op :: op2 :: rest2)).2.2
            = (applySecretOp webhook st seed op).2.2 ::
              (runSecretOps webhook (applySecretOp webhook st seed op).1
                (applySecretOp webhook st seed op).2.1 (op2 :: rest2)).2.2 := by
          simp [runSecretOps]
        have hne : (runSecretOps webhook (applySecretOp webhook st seed op).1
            (applySecretOp webhook st seed op).2.1 (op2 :: rest2)).2.2 ≠ [] := by
          intro hnil
          rw [hnil] at hlen
          simp at hlen
        obtain ⟨t, ts, hts⟩ := List.exists_cons_of_ne_nil hne
        rw [hexp, hts, List.getLast?_cons_cons, ← hts]
        exact hlast
      · simpa [runSecretOps] using hfilter
      · simpa [runSecretOps] using hlen

/-- Claim C5: for any initial store and any nonempty sequence of
`generate_secret`/`rotate_secret` calls for one webhook, the final
store holds exactly one secret for that webhook, `get_active_secret`
returns precisely the token of the last (Nth) call, one token is
created per call, and after every intermediate prefix of the sequence
the webhook likewise has exactly one stored secret — no state with
zero or two active secrets is observable between operations. -/
theorem secret_invariant (st : SecretStore) (seed webhook : Nat)
    (ops : List SecretOp) (h : ops ≠ []) :
    ((runSecretOps webhook st seed ops).1.filter (fun r => r.1 = webhook)).length = 1
    ∧ get_active_secret (runSecretOps webhook st seed ops).1 webhook
        = (runSecretOps webhook st seed ops).2.2.getLast?
    ∧ (runSecretOps webhook st seed ops).2.2.length = ops.length
    ∧ ∀ k : Nat, 0 < k →
        ((runSecretOps webhook st seed (ops.take k)).1.filter
            (fun r => r.1 = webhook)).length = 1 := by
  obtain ⟨tok, hlast, hfilter, hlen⟩ := runSecretOps_last webhook ops st seed h
  refine ⟨by rw [hfilter]; rfl, ?_, hlen, ?_⟩
  · rw [get_active_secret, hfilter, hlast]; rfl
  · intro k hk
    have htake : ops.take k ≠ [] := by
      cases ops with
      | nil => exact absurd rfl h
      | cons a t =>
        cases k with
        | zero => exact absurd hk (by simp)
        | succ m => simp [List.take]
    obtain ⟨tok', _, hf', _⟩ := runSecretOps_last webhook (ops.take k) st seed htake
    rw [hf']; rfl

/-- Witness for `secret_invariant`: three consecutive calls
(generate 16, rotate, generate 64) starting from a store that already
held a secret for webhook 2. -/
theorem secret_invariant_witness :
    ((runSecretOps 2 [(2, { seed := 0, nbytes := 32 })] 5
        [SecretOp.generate 16, SecretOp.rotate, SecretOp.generate 64]).1.filter
        (fun r => r.1 = 2)).length = 1
    ∧ get_active_secret
        (runSecretOps 2 [(2, { seed := 0, nbytes := 32 })] 5
          [SecretOp.generate 16, SecretOp.rotate, SecretOp.generate 64]).1 2
        = (runSecretOps 2 [(2, { seed := 0, nbytes := 32 })] 5
            [SecretOp.generate 16, SecretOp.rotate, SecretOp.generate 64]).2.2.getLast? :=
  ⟨(secret_invariant [(2, { seed := 0, nbytes := 32 })] 5 2
      [SecretOp.generate 16, SecretOp.rotate, SecretOp.generate 64] (by decide)).1,
   (secret_invariant [(2, { seed := 0, nbytes := 32 })] 5 2
      [SecretOp.generate 16, SecretOp.rotate, SecretOp.generate 64] (by decide)).2.1⟩

/-! Section: C6 -/

/-- Claim C6 counterexample: with an empty registry and a store holding
topic `"a"`, the command returns early ("No topics found in
registry.") and the store keeps `"a"` — the persisted catalog is *not*
a subset of the registry's (empty) key set after the routine runs,
refuting the claim for every store and registry state. -/
theorem reconcile_empty_registry_keeps_stale_topics :
    populate_webhook_topics (∅ : Finset String) {"a"} = {"a"}
    ∧ ¬ populate_webhook_topics (∅ : Finset String) {"a"} ⊆ (∅ : Finset String) := by
  constructor
  · simp [populate_webhook_topics]
  · intro hsub
    have : ("a" : String) ∈ (∅ : Finset String) := by
      refine hsub ?_
      simp [populate_webhook_topics]
    simp at this

/-- Claim C6 as amended: whenever the registry is *nonempty*, the
reconciliation routine makes the persisted catalog exactly the
registry's key set (stale names removed, missing names created —
hence in particular a subset-or-equal mirror); when the registry is
empty the routine returns early and leaves the store untouched. -/
theorem reconcile_mirrors_registry (registry store : Finset String)
    (h : registry ≠ ∅) :
    populate_webhook_topics registry store = registry := by
  unfold populate_webhook_topics
  rw [if_neg h]
  refine Finset.union_eq_right.mpr ?_
  intro x hx
  exact (Finset.mem_filter.mp hx).2

/-- Witness for `reconcile_mirrors_registry`: registry `{a, b}`,
store `{a, c}` — `c` removed, `b` created. -/
theorem reconcile_mirrors_registry_witness :
    populate_webhook_topics ({"a", "b"} : Finset String) {"a", "c"}
      = ({"a", "b"} : Finset String) :=
  reconcile_mirrors_registry {"a", "b"} {"a", "c"} (by decide)

/-! Section: C7 -/

/-- Claim C7 counterexample: a bulk update (and a bulk delete) of two
webhooks where one item succeeds and one fails reports
`success = false` — a partial success is reported as an overall
failure even though not every item failed, refuting the claim. -/
theorem bulk_partial_success_reported_as_failure :
    bulk_update_webhooks [true, false]
        = { success := false, okCount := 1, failedCount := 1 }
    ∧ bulk_delete_webhooks [true, false]
        = { success := false, okCount := 1, failedCount := 1 } :=
  ⟨rfl, rfl⟩

/-- Claim C7 as amended: the bulk endpoints do continue past individual
item failures and accumulate counts over all items (ok + failed counts
sum to the batch size; bulk create returns every successfully created
item), but the response's `success` flag is true exactly when *zero*
items failed — any single failure marks the whole batch as a
failure. -/
theorem bulk_ops_continue_and_count (outcomes : List Bool)
    {α : Type} (items : List (Option α)) :
    (bulk_update_webhooks outcomes).okCount
        + (bulk_update_webhooks outcomes).failedCount = outcomes.length
    ∧ (bulk_update_webhooks outcomes).success = outcomes.all (fun b => b)
    ∧ bulk_delete_webhooks outcomes = bulk_update_webhooks outcomes
    ∧ (bulk_create_webhooks items).length
        = (items.filter (fun o => o.isSome)).length := by
  refine ⟨?_, ?_, rfl, ?_⟩
  · induction outcomes with
    | nil => rfl
    | cons a t ih =>
      cases a <;> simp [bulk_update_webhooks, List.filter] at ih ⊢ <;> omega
  · induction outcomes with
    | nil => rfl
    | cons a t ih =>
      cases a with
      | false => simp [bulk_update_webhooks, List.filter, List.all]
      | true =>
        simp [bulk_update_webhooks, List.filter, List.all] at ih ⊢
        exact ih
  · induction items with
    | nil => rfl
    | cons a t ih =>
      cases a <;> simp [bulk_create_webhooks, List.filter] at ih ⊢
      · exact ih
      · exact ih

/-! Section: C8 -/

/-- Claim C8 counterexample: `generate_secret` called with `length = 8`
draws a token of exactly 8 random bytes — the length argument is not
bounded into 16–64 (no clamping or validation exists in the code),
refuting the claim. -/
theorem generate_secret_accepts_out_of_range_length :
    (generate_secret [] 0 1 8).2.2 = { seed := 0, nbytes := 8 }
    ∧ ¬ (16 ≤ (generate_secret [] 0 1 8).2.2.nbytes) :=
  ⟨rfl, by decide⟩

/-- Claim C8 as amended: `generate_secret(webhook, length=32)` draws a
fresh `token_urlsafe` token of exactly the requested `length` random
bytes, with the default length 32; `length` is passed through
unchecked — no 16–64 bound is enforced. -/
theorem generate_secret_token_spec (st : SecretStore)
    (seed webhook length : Nat) :
    (generate_secret st seed webhook length).2.2
        = { seed := seed, nbytes := length }
    ∧ (generate_secret st seed webhook).2.2.nbytes = 32
    ∧ (generate_secret st seed webhook length).2.1 = seed + 1 :=
  ⟨rfl, rfl, rfl⟩

/-! Section: C9 -/

/-- Filtering a constant list keeps all or nothing. -/
theorem filter_replicate_eq {α : Type} (n : Nat) (a : α) (p : α → Bool) :
    (List.replicate n a).filter p = if p a then List.replicate n a else [] := by
  induction n with
  | zero => simp
  | succ m ih =>
    by_cases h : p a
    · simp [List.replicate_succ, List.filter_cons, h, ih]
    · simp [List.replicate_succ, List.filter_cons, h, ih]

/-- Stats of `succ` successes and `fail` failures all created at
`now`, over the 7-day window. -/
theorem get_event_stats_tableEvents (succ fail : Nat) :
    get_event_stats (tableEvents succ fail) 1700000000 7
      = { total := succ + fail, success := succ, failed := fail, pending := 0 } := by
  have hcut : ((1700000000 : ℚ) - 7 * 86400 ≤ 1700000000) = True := by
    norm_num
  simp [get_event_stats, tableEvents, mkEvent, List.filter_append,
    filter_replicate_eq, hcut]

/-- The health classification the code computes is the spec's
thresholds applied to the spec's rate over the 7-day stats. -/
theorem get_webhook_health_status_spec (wh : WebhookRec)
    (events : List WebhookEventRec) (now : ℚ) :
    (get_webhook_health wh events now).health_status
        = specHealthStatus (specSuccessRate (get_event_stats events now 7)) := by
  have hrate : (if 0 < (get_event_stats events now 7).total
        then (((get_event_stats events now 7).success : ℚ)
              / ((get_event_stats events now 7).total : ℚ)) * 100 else 0)
      = specSuccessRate (get_event_stats events now 7) := by
    unfold specSuccessRate
    rcases Nat.eq_zero_or_pos (get_event_stats events now 7).total with h | h
    · simp [h]
    · rw [if_pos h, if_neg (Nat.pos_iff_ne_zero.mp h)]
  simp only [get_webhook_health]
  rw [hrate]
  rfl

/-- The reported `success_rate` is the spec's rate rounded to two
decimals. -/
theorem get_webhook_health_rate_spec (wh : WebhookRec)
    (events : List WebhookEventRec) (now : ℚ) :
    (get_webhook_health wh events now).success_rate
        = round2 (specSuccessRate (get_event_stats events now 7)) := by
  have hrate : (if 0 < (get_event_stats events now 7).total
        then (((get_event_stats events now 7).success : ℚ)
              / ((get_event_stats events now 7).total : ℚ)) * 100 else 0)
      = specSuccessRate (get_event_stats events now 7) := by
    unfold specSuccessRate
    rcases Nat.eq_zero_or_pos (get_event_stats events now 7).total with h | h
    · simp [h]
    · rw [if_pos h, if_neg (Nat.pos_iff_ne_zero.mp h)]
  simp only [get_webhook_health]
  rw [hrate]

/-- Claim C9: webhook health is evaluated over the fixed 7-day window
(`get_event_stats(webhook, days=7)` — `get_webhook_health` takes no
window argument, so no caller-requested stats window can change it):
the classification equals the spec's thresholds applied to the spec's
rate `success/total*100` (0 when `total = 0`, no division error), the
reported `success_rate` is that rate rounded to two decimals, and the
spec's table holds: 96/100 successes → `healthy`, 85/100 → `warning`,
50/100 → `unhealthy`, and no events → `success_rate = 0`. -/
theorem webhook_health_classification (wh : WebhookRec)
    (events : List WebhookEventRec) (now : ℚ) :
    (get_webhook_health wh events now).health_status
        = specHealthStatus (specSuccessRate (get_event_stats events now 7))
    ∧ (get_webhook_health wh events now).success_rate
        = round2 (specSuccessRate (get_event_stats events now 7))
    ∧ (get_webhook_health wh events now).events_last_7_days
        = get_event_stats events now 7
    ∧ (get_webhook_health demoWebhook (tableEvents 96 4) 1700000000).health_status
        = "healthy"
    ∧ (get_webhook_health demoWebhook (tableEvents 85 15) 1700000000).health_status
        = "warning"
    ∧ (get_webhook_health demoWebhook (tableEvents 50 50) 1700000000).health_status
        = "unhealthy"
    ∧ (get_webhook_health demoWebhook [] 1700000000).success_rate = 0 := by
  refine ⟨get_webhook_health_status_spec wh events now,
    get_webhook_health_rate_spec wh events now, rfl, ?_, ?_, ?_, ?_⟩
  · rw [get_webhook_health_status_spec, get_event_stats_tableEvents]
    norm_num [specSuccessRate, specHealthStatus]
  · rw [get_webhook_health_status_spec, get_event_stats_tableEvents]
    norm_num [specSuccessRate, specHealthStatus]
  · rw [get_webhook_health_status_spec, get_event_stats_tableEvents]
    norm_num [specSuccessRate, specHealthStatus]
  · rw [get_webhook_health_rate_spec]
    norm_num [specSuccessRate, round2, get_event_stats]

/-! Section: C10 -/

/-- Claim C10: with the event found in the store, (1) a status of
`SUCCESS` or `PENDING` makes `retry_failed_event` fail with the
validation error "Only failed events can be retried" — the dispatch
path is never entered, so no delivery happens and nothing changes;
(2) a missing or inactive webhook likewise makes it fail with a
validation error; (3) only a `FAILURE` event with an active webhook is
re-dispatched, and then the call is exactly `fire_webhook_event` with
the event's original topic, original payload and original webhook
uuid. -/
theorem retry_failed_event_preconditions (env : Env)
    (events : List WebhookEventRec) (event_id : Nat)
    (event : WebhookEventRec)
    (hfind : events.find? (fun e => e.id = event_id) = Option.some event) :
    (event.status = "SUCCESS" ∨ event.status = "PENDING" →
      retry_failed_event env events event_id
        = .error (.validationError "Only failed events can be retried"))
    ∧ ((event.webhook = Option.none
          ∨ ∃ wh : WebhookRec, event.webhook = Option.some wh ∧ wh.active = false) →
      ∃ msg : String,
        retry_failed_event env events event_id = .error (.validationError msg))
    ∧ (∀ wh : WebhookRec, event.status = "FAILURE" →
        event.webhook = Option.some wh → wh.active = true →
        retry_failed_event env events event_id
          = fire_webhook_event env event.topic event.object (Option.some wh.uuid)) := by
  unfold retry_failed_event
  rw [hfind]
  refine ⟨?_, ?_, ?_⟩
  · intro hs
    have hne : event.status ≠ "FAILURE" := by
      rcases hs with h | h <;> simp [h]
    simp [hne]
  · intro hw
    by_cases hstat : event.status = "FAILURE"
    · rcases hw with hw | ⟨wh, hwh, hact⟩
      · exact ⟨"Webhook is not active", by simp [hstat, hw]⟩
      · exact ⟨"Webhook is not active", by simp [hstat, hwh, hact]⟩
    · exact ⟨"Only failed events can be retried", by simp [hstat]⟩
  · intro wh hstat hwh hact
    simp [hstat, hwh, hact]

/-- Witness for `retry_failed_event_preconditions`: retrying the
stored `SUCCESS` event fails with the validation error. -/
theorem retry_failed_event_preconditions_witness :
    retry_failed_event demoEnv retryDemoEvents 1
      = .error (.validationError "Only failed events can be retried") :=
  (retry_failed_event_preconditions demoEnv retryDemoEvents 1
      { id := 1, webhook := Option.some demoWebhook, topic := "order.created",
        object := .dict [("id", .int 7)], status := "SUCCESS", created := 0 }
      rfl).1 (Or.inl rfl)

end Oxhook
